import Mathlib

set_option autoImplicit false

/-!
# Verification of the zpcg-gtfs stop resolver and incremental fetch loop

Shallow embedding of the two scripts `update-feed.py` and `fetch-hafas.py`.
Coordinates (Python floats) are modelled as exact rationals, timestamps
(`datetime` instants) as integer epoch seconds, and the GeoJSON property
dictionaries as association lists.  External library calls that the scripts
merely delegate to (the `difflib.SequenceMatcher`-based name matcher, the
`hashlib` digest) are threaded as explicit function parameters, so every
theorem below holds for every behaviour of those collaborators.
-/

namespace ZpcgGtfs

/-- A GeoJSON `properties` dictionary: string keys to string values. -/
abbrev Props := List (String × String)

/-- Dictionary lookup (`key in d` / `d[key]` combined): first binding wins. -/
def propLookup (props : Props) (key : String) : Option String :=
  match props with
  | [] => none
  | (k, v) :: rest => if k = key then some v else propLookup rest key

/-- One feature of `stations.geojson`: its tag set and its
`geometry.coordinates` pair, stored here as latitude (`coordinates[1]`)
and longitude (`coordinates[0]`). -/
structure Station where
  props : Props
  lat : Rat
  lon : Rat
deriving DecidableEq, Repr

/-- A pyhafas stop as handed to `search_station`: free-text `name`, backend
identifier `id`, and `latitude`/`longitude` coordinates. -/
structure HafasStop where
  name : String
  id : String
  latitude : Rat
  longitude : Rat
deriving DecidableEq, Repr

/-- The `Stop` output class of `update-feed.py` (resolved name/lat/lon). -/
structure Stop where
  name : String
  lat : Rat
  lon : Rat
deriving DecidableEq, Repr

/-- `update-feed.py` `distance`: squared Euclidean distance of two
(lat, lon) pairs. -/
def distance (a b : Rat × Rat) : Rat :=
  (a.1 - b.1) ^ 2 + (a.2 - b.2) ^ 2

/-- The first guard of `choose_best_osm_node`:
`"ref:ibnr" in candidate["properties"] and candidate["properties"]["ref:ibnr"] == stop.id`. -/
def ibnrMatches (candidate : Station) (stopId : String) : Bool :=
  match propLookup candidate.props "ref:ibnr" with
  | some v => v == stopId
  | none => false

/-- `"railway" in p and (p["railway"] == "station" or p["railway"] == "halt")`. -/
def railwayStationOrHalt (c : Station) : Bool :=
  match propLookup c.props "railway" with
  | some v => v == "station" || v == "halt"
  | none => false

/-- The second disjunct of the second guard of `choose_best_osm_node`:
`"public_transport" in p and "public_transport" in p == "station"`.
In Python the tail is the chained comparison
`("public_transport" in p) and (p == "station")`, and a dict never equals a
string, so the whole disjunct is identically false; we embed it verbatim. -/
def publicTransportClause (c : Station) : Bool :=
  (propLookup c.props "public_transport").isSome && false

/-- The full second guard of `choose_best_osm_node`: a station or halt
(or the dead public-transport clause) that is neither abandoned nor disused. -/
def activeStationOrHalt (c : Station) : Bool :=
  (railwayStationOrHalt c || publicTransportClause c)
    && (propLookup c.props "abandoned:railway").isNone
    && (propLookup c.props "disused:railway").isNone

/-- `update-feed.py` `choose_best_osm_node`: first candidate with a matching
`ref:ibnr`, else first active station/halt, else `candidates[0]`
(`none` models the `IndexError` on an empty candidate list, which the sole
call site guards against). -/
def choose_best_osm_node (candidates : List Station) (stop : HafasStop) : Option Station :=
  match candidates.find? (fun c => ibnrMatches c stop.id) with
  | some c => some c
  | none =>
    match candidates.find? activeStationOrHalt with
    | some c => some c
    | none => candidates.head?

/-- Characters removed by Python `str.strip("[]")`. -/
def isBracketChar (c : Char) : Bool :=
  c == '[' || c == ']'

/-- Python `s.strip("[]")`: drop leading and trailing `[`/`]` characters. -/
def stripSquareBrackets (s : String) : String :=
  String.mk (((s.data.dropWhile isBracketChar).reverse.dropWhile isBracketChar).reverse)

/-- `update-feed.py` `station_name_fallback`: first of the properties
`name:sr-Latn`, `name:en`, `name` that is present, stripped of `[`/`]`;
`none` models the `raise Exception` when none of the three is present. -/
def station_name_fallback (station : Station) : Option String :=
  match propLookup station.props "name:sr-Latn" with
  | some v => some (stripSquareBrackets v)
  | none =>
    match propLookup station.props "name:en" with
    | some v => some (stripSquareBrackets v)
    | none =>
      match propLookup station.props "name" with
      | some v => some (stripSquareBrackets v)
      | none => none

/-- The resolver's memoisation dictionary, keyed by (latitude, longitude). -/
abbrev Cache := List ((Rat × Rat) × Stop)

/-- Dict lookup in the resolver cache. -/
def cacheLookup (cache : Cache) (key : Rat × Rat) : Option Stop :=
  match cache with
  | [] => none
  | (k, v) :: rest => if k = key then some v else cacheLookup rest key

/-- The candidate-gathering guard of `search_station`: either within the fixed
squared-distance threshold `0.00002` of the stop's coordinates with a
plausibly matching name, or an exact `ref:ibnr` match.  `nameMatches` stands
for `station_name_matches`, whose similarity ratio comes from the external
`difflib.SequenceMatcher`; all theorems hold for every such matcher. -/
def isCandidate (nameMatches : Station → String → Bool) (stop : HafasStop)
    (station : Station) : Bool :=
  (decide (distance (station.lat, station.lon) (stop.latitude, stop.longitude)
        < 2 / 100000)
      && nameMatches station stop.name)
    || ibnrMatches station stop.id

/-- What one `search_station` call produces: the resolved stop, the cache
after the call, whether the station index was scanned (false on a cache hit),
and the diagnostic lines printed. -/
structure SearchOutcome where
  osm_stop : Stop
  cache : Cache
  scanned : Bool
  diags : List String
deriving DecidableEq, Repr

/-- `update-feed.py` `search_station`.  The mutable default-argument cache is
threaded explicitly; `none` models an uncaught exception escaping the call
(the only raise site is `station_name_fallback`). -/
def search_station (nameMatches : Station → String → Bool) (stations : List Station)
    (stop : HafasStop) (cache : Cache) : Option SearchOutcome :=
  match cacheLookup cache (stop.latitude, stop.longitude) with
  | some cached => some ⟨cached, cache, false, []⟩
  | none =>
    let candidates := stations.filter (isCandidate nameMatches stop)
    if candidates.isEmpty then
      let fallback : Stop := ⟨stop.name, stop.latitude, stop.longitude⟩
      some ⟨fallback, ((stop.latitude, stop.longitude), fallback) :: cache, true,
        ["Did not find " ++ stop.name ++ " (" ++ stop.id ++ ") in OSM data"]⟩
    else
      match choose_best_osm_node candidates stop with
      | none => none
      | some node =>
        match station_name_fallback node with
        | none => none
        | some nm =>
          let resolved : Stop := ⟨nm, node.lat, node.lon⟩
          some ⟨resolved, ((stop.latitude, stop.longitude), resolved) :: cache, true, []⟩

/-- Python `f"{n:02}"` on an integer: pad with zeros to width 2, the sign
counting towards the width. -/
def pad2 (n : Int) : String :=
  let s := toString n
  if s.length < 2 then "0" ++ s else s

/-- `time_to_gtfs` of both scripts.  Dates/instants are integer epoch
seconds; `start_date_midnight` is midnight of the trip's reference date in
the stop's timezone (`datetime.combine(start_date, min.time(), tzinfo)`).
Python's `//` and `%` with the positive divisors 3600 and 60 coincide with
Lean's Euclidean `/` and `%` on `Int`. -/
def time_to_gtfs (start_date_midnight : Int) (time : Int) : String :=
  let seconds : Int := time - start_date_midnight
  pad2 (seconds / 3600) ++ ":" ++ pad2 (seconds % 3600 / 60) ++ ":" ++ pad2 (seconds % 60)

/-- The pyhafas fptf `Mode` enumeration (external collaborator type). -/
inductive Mode where
  | bus | train | watercraft | taxi | gondola | aircraft | car | bicycle | walking
deriving DecidableEq, Repr

/-- The Python exception values relevant at the fetch-loop boundary. -/
inductive PyError where
  | generalHafasError
  | keyboardInterrupt
  | unknownMode
deriving DecidableEq, Repr

/-- `update-feed.py` `mode_to_route_type`: buses map to 3; trains map by the
parsed category token (unknown tokens warn and default to 2); any other mode
falls through the `match` to `raise Exception("Unknown mode")`. -/
def mode_to_route_type (mode : Mode) (route_type : Option String) : Except PyError Nat :=
  match mode with
  | .bus => .ok 3
  | .train =>
    match route_type with
    | some "R" => .ok 106
    | some "E" => .ok 106
    | some "IC" => .ok 102
    | some "EC" => .ok 102
    | some "D" => .ok 102
    | none => .ok 2
    | some _ => .ok 2
  | _ => .error .unknownMode

/-- The `except (GeneralHafasError, KeyboardInterrupt)` clause guarding each
fetch loop: which exceptions it catches. -/
def fetchLoopCatches (e : PyError) : Bool :=
  match e with
  | .generalHafasError => true
  | .keyboardInterrupt => true
  | _ => false

/-- A pyhafas trip, as far as identity assignment needs it. -/
structure Trip where
  id : String
  name : String
deriving DecidableEq, Repr

/-- `service_id` exactly as written in both scripts: its body hashes
`"service" + trip.id` where `trip` is the enclosing scope's variable, the
`trip_id` parameter being ignored.  `sha256hex` stands for hashlib's
`sha256(...).hexdigest()` (an external pure function). -/
def service_id (sha256hex : String → String) (ambientTripId : String)
    ( _trip_id : String) : String :=
  sha256hex ("service" ++ ambientTripId)

/-- The key columns bound into `insert or replace into trips` by the fetch
loop: `(trip.name, service_id(trip.id), sha256(trip.id).hexdigest(), ...)`.
At this call site the ambient `trip` is the trip being inserted, so
`service_id`'s ambient argument equals its explicit argument. -/
structure TripsRow where
  route_id : String
  service_id : String
  trip_id : String
deriving DecidableEq, Repr

/-- Assembles the trips-row keys for one trip, as the loop body does. -/
def tripsRow (sha256hex : String → String) (trip : Trip) : TripsRow :=
  { route_id := trip.name
    service_id := ZpcgGtfs.service_id sha256hex trip.id trip.id
    trip_id := sha256hex trip.id }

/-- A pyhafas stopover: its stop plus optional arrival/departure instants
(integer epoch seconds; `None` when the backend reports no time). -/
structure Stopover where
  stop : HafasStop
  arrival : Option Int
  departure : Option Int
deriving DecidableEq, Repr

/-- Python `a if a else b` on two optional instants. -/
def firstSome (a b : Option Int) : Option Int :=
  match a with
  | some v => some v
  | none => b

/-- The columns of a `stops` row that the loop computes (constant/NULL
columns omitted). -/
structure StopsRow where
  stop_id : String
  stop_name : String
  stop_lat : Rat
  stop_lon : Rat
deriving DecidableEq, Repr

/-- The columns of a `stop_times` row that the loop computes. -/
structure StopTimesRow where
  trip_id : String
  arrival_time : Option String
  departure_time : Option String
  stop_id : String
  stop_sequence : Nat
deriving DecidableEq, Repr

/-- The skip guard of the stopover loop:
`if not stopover.departure and not stopover.arrival`. -/
def hasNoTimes (so : Stopover) : Bool :=
  so.departure.isNone && so.arrival.isNone

/-- The per-trip stopover loop of `update-feed.py` (lines 354-404): for each
stopover it first executes the `stops` upsert, then — unless the stopover has
neither departure nor arrival, which is logged and skipped — the `stop_times`
upsert with the running `sequence` counter.  `resolve` stands for
`search_station stations stopover.stop` with the ambient cache. -/
def stopoverRows (resolve : HafasStop → Stop) (tripIdHash : String)
    (refMidnight : Int) (seq : Nat) :
    List Stopover → List StopsRow × List StopTimesRow
  | [] => ([], [])
  | so :: rest =>
    let meta := resolve so.stop
    let sRow : StopsRow := ⟨so.stop.id, meta.name, meta.lat, meta.lon⟩
    if hasNoTimes so then
      let r := stopoverRows resolve tripIdHash refMidnight seq rest
      (sRow :: r.1, r.2)
    else
      let tRow : StopTimesRow :=
        ⟨tripIdHash,
          (firstSome so.arrival so.departure).map (time_to_gtfs refMidnight),
          (firstSome so.departure so.arrival).map (time_to_gtfs refMidnight),
          so.stop.id, seq⟩
      let r := stopoverRows resolve tripIdHash refMidnight (seq + 1) rest
      (sRow :: r.1, tRow :: r.2)

/-- `update-feed.py` lines 284-291 and 406-409: the arrivals batch is
appended to the departures batch, and then BOTH `latest_departure` and
`latest_arrival` are read from `departures[-1]` of the combined list, so the
`min` of line 406 is a `min` of two copies of the same instant. -/
def updateFeed_latest_time_end (deps arrs : List Int) : Option Int :=
  let departures := deps ++ arrs
  match departures.getLast?, departures.getLast? with
  | some latest_departure, some latest_arrival =>
    some (min latest_departure latest_arrival)
  | _, _ => none

/-- `fetch-hafas.py` lines 153-156 and 243: `latest_departure` is read from
`departures[-1]` before the arrivals are appended and `latest_arrival` from
the combined list afterwards. -/
def fetchHafas_latest_time (deps arrs : List Int) : Option Int :=
  match deps.getLast?, (deps ++ arrs).getLast? with
  | some latest_departure, some latest_arrival =>
    some (min latest_departure latest_arrival)
  | _, _ => none

/-- Follows the spec's words, for comparison with the source embeddings
above: "the minimum of the latest departure/arrival instants observed in the
batch" — the minimum of the largest fetched departure instant and the
largest fetched arrival instant. -/
def claimed_latest_time_end (deps arrs : List Int) : Option Int :=
  match deps.max?, arrs.max? with
  | some d, some a => some (min d a)
  | _, _ => none

/-- What one iteration of the `update-feed.py` loop does to the watermark:
the value written to the timestamp file (if any), whether the loop breaks,
and the watermark the next iteration starts from. -/
structure StepResult where
  persisted : Option Int
  stopped : Bool
  next : Int
deriving DecidableEq, Repr

/-- One committed iteration of the `update-feed.py` fetch loop, watermark
part (lines 284-291 and 406-426): an empty combined batch breaks with
nothing persisted; otherwise the computed `latest_time_end` is written to
the timestamp file unconditionally, and the loop breaks exactly when it
equals the previous watermark (`latest_time.timestamp() ==
latest_time_end.timestamp()`). -/
def updateFeed_step (latest_time : Int) (deps arrs : List Int) : StepResult :=
  match updateFeed_latest_time_end deps arrs with
  | none => ⟨none, true, latest_time⟩
  | some latest_time_end =>
    { persisted := some latest_time_end
      stopped := latest_time == latest_time_end
      next := if latest_time == latest_time_end then latest_time else latest_time_end }

/-- The sqlite connection: rows already committed, and rows executed on the
cursor but still inside the open (uncommitted) transaction.  Row contents
are abstracted to tokens. -/
structure DbState where
  committed : List Nat
  pending : List Nat
deriving DecidableEq, Repr

/-- `db.commit()`. -/
def dbCommit (d : DbState) : DbState :=
  ⟨d.committed ++ d.pending, []⟩

/-- State of one fetch session: the database connection and the per-station
watermark (timestamp) file. -/
structure Session where
  db : DbState
  watermarkFile : Option Int
deriving DecidableEq, Repr

/-- One loop iteration's outcome: either the whole batch is processed
(its rows executed, a latest instant computed), or a `GeneralHafasError` /
`KeyboardInterrupt` strikes after only part of the batch's rows were
executed. -/
inductive IterOutcome where
  | ok (rows : List Nat) (latest : Int)
  | err (partialRows : List Nat) (e : PyError)
deriving DecidableEq, Repr

/-- The `fetch-hafas.py` while-loop (lines 135-254): a successful iteration
executes its rows on the cursor (there is no per-iteration commit) and
overwrites the timestamp file; the loop exits only via the except clause,
which leaves the in-flight batch's rows pending and the file untouched. -/
def fetchHafas_loop (s : Session) : List IterOutcome → Session
  | [] => s
  | .ok rows latest :: rest =>
    fetchHafas_loop ⟨⟨s.db.committed, s.db.pending ++ rows⟩, some latest⟩ rest
  | .err rows _ :: _ =>
    ⟨⟨s.db.committed, s.db.pending ++ rows⟩, s.watermarkFile⟩

/-- The whole `fetch-hafas.py` session: run the loop, then the unconditional
`db.commit()` of line 258. -/
def fetchHafas_session (s : Session) (outcomes : List IterOutcome) : Session :=
  let s2 := fetchHafas_loop s outcomes
  ⟨dbCommit s2.db, s2.watermarkFile⟩

/-- One iteration of the `update-feed.py` loop, database/watermark part
(lines 412-430): a successful iteration executes its rows, commits, and then
persists the watermark; the except clause breaks out with the in-flight
rows pending, no commit and no watermark write.  The returned flag records
whether the loop broke via the except clause. -/
def updateFeed_iter (s : Session) : IterOutcome → Session × Bool
  | .ok rows latest =>
    (⟨dbCommit ⟨s.db.committed, s.db.pending ++ rows⟩, some latest⟩, false)
  | .err rows _ =>
    (⟨⟨s.db.committed, s.db.pending ++ rows⟩, s.watermarkFile⟩, true)

/-! ## Helper lemmas -/

theorem cacheLookup_cons_self (k : Rat × Rat) (v : Stop) (c : Cache) :
    cacheLookup ((k, v) :: c) k = some v := by
  simp [cacheLookup]

theorem choose_best_osm_node_mem {cands : List Station} {stop : HafasStop}
    {c : Station} (h : choose_best_osm_node cands stop = some c) : c ∈ cands := by
  unfold choose_best_osm_node at h
  cases h1 : cands.find? (fun x => ibnrMatches x stop.id) with
  | some d =>
    rw [h1] at h
    cases h
    exact List.mem_of_find?_eq_some h1
  | none =>
    rw [h1] at h
    cases h2 : cands.find? activeStationOrHalt with
    | some d =>
      rw [h2] at h
      cases h
      exact List.mem_of_find?_eq_some h2
    | none =>
      rw [h2] at h
      cases cands with
      | nil => cases h
      | cons a l =>
        cases h
        exact List.mem_cons_self _ _

theorem choose_best_osm_node_isSome {cands : List Station} (stop : HafasStop)
    (h : cands ≠ []) : (choose_best_osm_node cands stop).isSome := by
  unfold choose_best_osm_node
  cases h1 : cands.find? (fun x => ibnrMatches x stop.id) with
  | some d => rfl
  | none =>
    cases h2 : cands.find? activeStationOrHalt with
    | some d => rfl
    | none =>
      cases cands with
      | nil => exact absurd rfl h
      | cons a l => rfl

theorem search_station_hit (nm : Station → String → Bool) (stations : List Station)
    (stop : HafasStop) (cache : Cache) (r : Stop)
    (h : cacheLookup cache (stop.latitude, stop.longitude) = some r) :
    search_station nm stations stop cache = some ⟨r, cache, false, []⟩ := by
  simp [search_station, h]

theorem search_station_caches (nm : Station → String → Bool)
    (stations : List Station) (stop : HafasStop) (cache : Cache)
    (out : SearchOutcome) (h : search_station nm stations stop cache = some out) :
    cacheLookup out.cache (stop.latitude, stop.longitude) = some out.osm_stop := by
  unfold search_station at h
  cases hcl : cacheLookup cache (stop.latitude, stop.longitude) with
  | some r =>
    rw [hcl] at h
    cases h
    exact hcl
  | none =>
    rw [hcl] at h
    simp only at h
    by_cases hc : (stations.filter (isCandidate nm stop)).isEmpty
    · rw [if_pos hc] at h
      cases h
      exact cacheLookup_cons_self _ _ _
    · rw [if_neg hc] at h
      split at h
      · cases h
      · split at h
        · cases h
        · cases h
          exact cacheLookup_cons_self _ _ _

theorem stopoverRows_counts (resolve : HafasStop → Stop) (tripIdHash : String)
    (refMidnight : Int) (seq : Nat) (sos : List Stopover) :
    (stopoverRows resolve tripIdHash refMidnight seq sos).1.length = sos.length ∧
    (stopoverRows resolve tripIdHash refMidnight seq sos).2.length
      = (sos.filter (fun so => !hasNoTimes so)).length ∧
    (stopoverRows resolve tripIdHash refMidnight seq sos).2.map
        (fun r => r.stop_sequence)
      = List.range' seq (sos.filter (fun so => !hasNoTimes so)).length := by
  induction sos generalizing seq with
  | nil => simp [stopoverRows]
  | cons so rest ih =>
    by_cases hso : hasNoTimes so
    · have := ih seq
      simp only [stopoverRows, hso, if_pos, List.filter_cons, Bool.not_true,
        List.length_cons, List.map_cons] at *
      simp [hso, this.1, this.2.1, this.2.2]
    · have := ih (seq + 1)
      simp only [stopoverRows, List.filter_cons] at *
      simp [hso, this.1, this.2.1, this.2.2, List.range'_succ]

/-! ## Theorems -/

/-- C1, counterexample: starting from watermark 100, a committed iteration
whose only fetched instant is 50 persists the regressed watermark 50 to the
timestamp file and does NOT stop the loop, even though the newly computed
watermark (50) does not strictly advance past the previous one (100).  This
refutes both halves of the claim as stated. -/
theorem C1_counterexample :
    updateFeed_step 100 [50] [] =
      { persisted := some 50, stopped := false, next := 50 } ∧
    (50 : Int) < 100 := by
  constructor
  · rfl
  · decide

/-- C1, amended: across committed iterations of the update-feed fetch loop,
every non-empty batch persists the newly computed watermark unconditionally
(it may regress below the previous one), and the loop stops exactly when the
newly computed watermark is EQUAL to the previous one — in particular equal
consecutive watermarks stop the loop, but a strictly regressing watermark
keeps the loop running with the regressed value. -/
theorem C1_watermark_step (w : Int) (deps arrs : List Int)
    (h : deps ++ arrs ≠ []) :
    ∃ lte, updateFeed_latest_time_end deps arrs = some lte ∧
      (updateFeed_step w deps arrs).persisted = some lte ∧
      ((updateFeed_step w deps arrs).stopped = true ↔ lte = w) ∧
      ((updateFeed_step w deps arrs).stopped = false →
        (updateFeed_step w deps arrs).next = lte) := by
  obtain ⟨l, hl⟩ := Option.isSome_iff_exists.mp (List.getLast?_isSome.mpr h)
  have hlte : updateFeed_latest_time_end deps arrs = some l := by
    simp [updateFeed_latest_time_end, hl]
  refine ⟨l, hlte, ?_, ?_, ?_⟩
  · simp [updateFeed_step, hlte]
  · simp only [updateFeed_step, hlte]
    constructor
    · intro hb
      exact (beq_iff_eq.mp hb).symm
    · intro he
      simp [he]
  · simp only [updateFeed_step, hlte]
    intro hb
    simp [hb]

/-- C1 witness for the amended theorem. -/
theorem C1_watermark_step_witness :
    ∃ lte, updateFeed_latest_time_end [5] [] = some lte ∧
      (updateFeed_step 0 [5] []).persisted = some lte ∧
      ((updateFeed_step 0 [5] []).stopped = true ↔ lte = 0) ∧
      ((updateFeed_step 0 [5] []).stopped = false →
        (updateFeed_step 0 [5] []).next = lte) :=
  C1_watermark_step 0 [5] [] (by decide)

/-- C2: the failing input is a departures batch with latest instant 10 and an
arrivals batch with latest instant 20.  update-feed.py reads BOTH
`latest_departure` and `latest_arrival` from the last element of the
concatenated list, so it computes watermark 20, while the claimed minimum of
the latest departure (10) and latest arrival (20) is 10 — which the sibling
script fetch-hafas.py does compute. -/
theorem C2_divergence :
    updateFeed_latest_time_end [10] [20] = some 20 ∧
    claimed_latest_time_end [10] [20] = some 10 ∧
    fetchHafas_latest_time [10] [20] = some 10 ∧
    updateFeed_latest_time_end [10] [20] ≠ claimed_latest_time_end [10] [20] := by
  refine ⟨?_, ?_, ?_, ?_⟩ <;> simp [updateFeed_latest_time_end,
    claimed_latest_time_end, fetchHafas_latest_time]

/-- C3, counterexample: a fetch-hafas.py session starting from a clean
database with persisted watermark 100, whose single iteration dies with a
`GeneralHafasError` after executing one row of its in-flight batch, ends
with that partial batch COMMITTED to the relational store by the
unconditional post-loop `db.commit()` (the watermark is preserved, as
claimed). -/
theorem C3_counterexample :
    (fetchHafas_session ⟨⟨[], []⟩, some 100⟩
        [.err [7] .generalHafasError]).db.committed = [7] ∧
    (fetchHafas_session ⟨⟨[], []⟩, some 100⟩
        [.err [7] .generalHafasError]).watermarkFile = some 100 := by
  constructor <;> rfl

/-- C3, amended: on an upstream backend error or interruption both loops stop
immediately with the last successfully persisted watermark preserved, and the
error-handling path itself commits nothing — but the in-flight partial batch
is not discarded: update-feed.py leaves its rows pending in the still-open
transaction of the shared connection, and fetch-hafas.py's unconditional
post-loop `db.commit()` does commit them. -/
theorem C3_error_path (s : Session) (rows : List Nat) (e : PyError)
    (rest : List IterOutcome) :
    (updateFeed_iter s (.err rows e)).2 = true ∧
    (updateFeed_iter s (.err rows e)).1.db.committed = s.db.committed ∧
    (updateFeed_iter s (.err rows e)).1.watermarkFile = s.watermarkFile ∧
    (updateFeed_iter s (.err rows e)).1.db.pending = s.db.pending ++ rows ∧
    (fetchHafas_loop s (.err rows e :: rest)).watermarkFile = s.watermarkFile ∧
    (fetchHafas_session s (.err rows e :: rest)).db.committed
      = s.db.committed ++ (s.db.pending ++ rows) := by
  refine ⟨rfl, rfl, rfl, rfl, rfl, rfl⟩

/-- C4, counterexample: resolution CAN raise.  A station record carrying the
stop's `ref:ibnr` reference code but none of the name properties
`name:sr-Latn` / `name:en` / `name` is gathered as a candidate (the code
match needs neither distance nor name similarity), wins the ranking, and
then `station_name_fallback` raises its `Exception`, which `search_station`
does not catch (modelled as `none`). -/
theorem C4_counterexample :
    search_station (fun _ _ => false) [⟨[("ref:ibnr", "123")], 0, 0⟩]
      ⟨"X", "123", 1, 1⟩ [] = none := by
  simp [search_station, cacheLookup, isCandidate, ibnrMatches, propLookup,
    choose_best_osm_node, station_name_fallback, List.filter, List.find?]

/-- C4, amended: when no geographic candidate matches, resolution returns a
fallback ResolvedStop whose name, latitude and longitude equal the raw
timetable stop's own name and coordinates, and emits a diagnostic; and
resolution never raises PROVIDED every station record carries at least one
of the prioritized name properties — a matched record with none of them
makes `station_name_fallback` raise through `search_station`. -/
theorem C4_resolution_fallback :
    (∀ (nameMatches : Station → String → Bool) (stations : List Station)
        (stop : HafasStop) (cache : Cache),
        cacheLookup cache (stop.latitude, stop.longitude) = none →
        stations.filter (isCandidate nameMatches stop) = [] →
        search_station nameMatches stations stop cache =
          some ⟨⟨stop.name, stop.latitude, stop.longitude⟩,
            ((stop.latitude, stop.longitude),
              (⟨stop.name, stop.latitude, stop.longitude⟩ : Stop)) :: cache, true,
            ["Did not find " ++ stop.name ++ " (" ++ stop.id ++ ") in OSM data"]⟩) ∧
    (∀ (nameMatches : Station → String → Bool) (stations : List Station)
        (stop : HafasStop) (cache : Cache),
        (∀ st ∈ stations, (station_name_fallback st).isSome) →
        (search_station nameMatches stations stop cache).isSome) := by
  constructor
  · intro nameMatches stations stop cache h1 h2
    simp [search_station, h1, h2]
  · intro nameMatches stations stop cache hnames
    unfold search_station
    cases hcl : cacheLookup cache (stop.latitude, stop.longitude) with
    | some r => rfl
    | none =>
      simp only
      by_cases hc : (stations.filter (isCandidate nameMatches stop)).isEmpty
      · rw [if_pos hc]
        rfl
      · rw [if_neg hc]
        have hne : stations.filter (isCandidate nameMatches stop) ≠ [] := by
          intro hnil
          rw [hnil] at hc
          exact hc rfl
        obtain ⟨node, hn⟩ := Option.isSome_iff_exists.mp
          (choose_best_osm_node_isSome stop hne)
        rw [hn]
        have hmem : node ∈ stations :=
          List.mem_of_mem_filter (choose_best_osm_node_mem hn)
        obtain ⟨nmv, hf⟩ := Option.isSome_iff_exists.mp (hnames node hmem)
        dsimp only
        rw [hf]
        rfl

/-- C4 witness for the amended theorem. -/
theorem C4_resolution_fallback_witness :
    search_station (fun _ _ => false) [] ⟨"X", "123", 1, 1⟩ [] =
      some ⟨⟨"X", 1, 1⟩, [((1, 1), ⟨"X", 1, 1⟩)], true,
        ["Did not find X (123) in OSM data"]⟩ ∧
    (search_station (fun _ _ => false) [⟨[("name", "Niksic")], 0, 0⟩]
        ⟨"X", "123", 1, 1⟩ []).isSome :=
  ⟨C4_resolution_fallback.1 (fun _ _ => false) [] ⟨"X", "123", 1, 1⟩ [] rfl rfl,
   C4_resolution_fallback.2 (fun _ _ => false) [⟨[("name", "Niksic")], 0, 0⟩]
     ⟨"X", "123", 1, 1⟩ [] (by intro st hst; simp at hst; subst hst; rfl)⟩

/-- C5: candidate ranking.  (1) A record whose `ref:ibnr` equals the stop's
reference code is gathered as a candidate for EVERY name matcher, so a
reference-code match wins even if name similarity would fail; and among the
gathered candidates `choose_best_osm_node` picks (2) the first candidate in
scan order with a matching reference code, else (3) the first active
station/halt (neither abandoned nor disused), else (4) the first candidate
in scan order. -/
theorem C5_choose_best_priority :
    (∀ (nameMatches : Station → String → Bool) (stop : HafasStop) (st : Station),
        ibnrMatches st stop.id = true → isCandidate nameMatches stop st = true) ∧
    (∀ (cands : List Station) (stop : HafasStop) (c : Station),
        cands.find? (fun x => ibnrMatches x stop.id) = some c →
        choose_best_osm_node cands stop = some c) ∧
    (∀ (cands : List Station) (stop : HafasStop) (c : Station),
        cands.find? (fun x => ibnrMatches x stop.id) = none →
        cands.find? activeStationOrHalt = some c →
        choose_best_osm_node cands stop = some c) ∧
    (∀ (cands : List Station) (stop : HafasStop),
        cands.find? (fun x => ibnrMatches x stop.id) = none →
        cands.find? activeStationOrHalt = none →
        choose_best_osm_node cands stop = cands.head?) := by
  refine ⟨?_, ?_, ?_, ?_⟩
  · intro nameMatches stop st h
    simp [isCandidate, h]
  · intro cands stop c h
    simp [choose_best_osm_node, h]
  · intro cands stop c h1 h2
    simp [choose_best_osm_node, h1, h2]
  · intro cands stop h1 h2
    simp [choose_best_osm_node, h1, h2]

/-- C5 witness: a failing name matcher still yields the reference-code
candidate; the code match beats an active station ahead of it in scan order;
the active station beats a plain record ahead of it; and with neither, the
first candidate in scan order is chosen. -/
theorem C5_choose_best_priority_witness :
    isCandidate (fun _ _ => false) ⟨"W", "77", 0, 0⟩ ⟨[("ref:ibnr", "77")], 9, 9⟩ = true ∧
    choose_best_osm_node
        [⟨[("railway", "station"), ("name", "A")], 0, 0⟩, ⟨[("ref:ibnr", "77")], 9, 9⟩]
        ⟨"W", "77", 0, 0⟩ = some ⟨[("ref:ibnr", "77")], 9, 9⟩ ∧
    choose_best_osm_node
        [⟨[("name", "B")], 0, 0⟩, ⟨[("railway", "halt"), ("name", "A")], 0, 0⟩]
        ⟨"W", "77", 0, 0⟩ = some ⟨[("railway", "halt"), ("name", "A")], 0, 0⟩ ∧
    choose_best_osm_node [⟨[("name", "B")], 0, 0⟩, ⟨[("name", "C")], 1, 1⟩]
        ⟨"W", "77", 0, 0⟩ = some ⟨[("name", "B")], 0, 0⟩ :=
  ⟨C5_choose_best_priority.1 (fun _ _ => false) ⟨"W", "77", 0, 0⟩
      ⟨[("ref:ibnr", "77")], 9, 9⟩ rfl,
   C5_choose_best_priority.2.1 _ ⟨"W", "77", 0, 0⟩ _ rfl,
   C5_choose_best_priority.2.2.1 _ ⟨"W", "77", 0, 0⟩ _ rfl rfl,
   C5_choose_best_priority.2.2.2 _ ⟨"W", "77", 0, 0⟩ rfl rfl⟩

/-- C6: every completed `search_station` call — matched or fallback — stores
its result in the cache under the queried (latitude, longitude) pair before
returning; and a second call for the same coordinate pair (with any station
index and any name matcher) returns exactly the cached first result, without
scanning and without growing the cache. -/
theorem C6_cache_memoisation :
    (∀ (nameMatches : Station → String → Bool) (stations : List Station)
        (stop : HafasStop) (cache : Cache) (out : SearchOutcome),
        search_station nameMatches stations stop cache = some out →
        cacheLookup out.cache (stop.latitude, stop.longitude) = some out.osm_stop) ∧
    (∀ (nm1 nm2 : Station → String → Bool) (stations1 stations2 : List Station)
        (stop1 stop2 : HafasStop) (cache : Cache) (out : SearchOutcome),
        stop2.latitude = stop1.latitude → stop2.longitude = stop1.longitude →
        search_station nm1 stations1 stop1 cache = some out →
        search_station nm2 stations2 stop2 out.cache
          = some ⟨out.osm_stop, out.cache, false, []⟩) := by
  constructor
  · intro nameMatches stations stop cache out h
    exact search_station_caches nameMatches stations stop cache out h
  · intro nm1 nm2 stations1 stations2 stop1 stop2 cache out hlat hlon h
    have hc := search_station_caches nm1 stations1 stop1 cache out h
    apply search_station_hit
    rw [hlat, hlon]
    exact hc

/-- C6 witness: a first (fallback) call caches its result at (1, 1); the
second call for the same pair returns it unchanged with no scan, even
against a different station index and matcher. -/
theorem C6_cache_memoisation_witness :
    cacheLookup [((1, 1), ⟨"X", 1, 1⟩)] (1, 1) = some ⟨"X", 1, 1⟩ ∧
    search_station (fun _ _ => true) [⟨[("name", "Niksic")], 0, 0⟩]
        ⟨"Y", "9", 1, 1⟩ [((1, 1), ⟨"X", 1, 1⟩)]
      = some ⟨⟨"X", 1, 1⟩, [((1, 1), ⟨"X", 1, 1⟩)], false, []⟩ := by
  have h0 : search_station (fun _ _ => false) [] ⟨"X", "123", 1, 1⟩ [] =
      some ⟨⟨"X", 1, 1⟩, [((1, 1), ⟨"X", 1, 1⟩)], true,
        ["Did not find X (123) in OSM data"]⟩ := rfl
  exact ⟨C6_cache_memoisation.1 (fun _ _ => false) [] ⟨"X", "123", 1, 1⟩ [] _ h0,
    C6_cache_memoisation.2 (fun _ _ => false) (fun _ _ => true) []
      [⟨[("name", "Niksic")], 0, 0⟩] ⟨"X", "123", 1, 1⟩ ⟨"Y", "9", 1, 1⟩ [] _
      rfl rfl h0⟩

/-- C7: the trip primary key is the digest of the backend trip id and the
service id is the digest of `"service"` concatenated with it; both are pure
functions of the trip id, so any two trips with the same backend id — in the
same run or different runs — receive identical keys. -/
theorem C7_identity (sha256hex : String → String) (t1 t2 : Trip)
    (h : t1.id = t2.id) :
    (tripsRow sha256hex t1).trip_id = (tripsRow sha256hex t2).trip_id ∧
    (tripsRow sha256hex t1).service_id = (tripsRow sha256hex t2).service_id ∧
    (tripsRow sha256hex t1).trip_id = sha256hex t1.id ∧
    (tripsRow sha256hex t1).service_id = sha256hex ("service" ++ t1.id) := by
  simp [tripsRow, service_id, h]

/-- C7 witness. -/
theorem C7_identity_witness :
    (tripsRow (fun s => s ++ "#") ⟨"trip1", "R 100"⟩).trip_id
        = (tripsRow (fun s => s ++ "#") ⟨"trip1", "B 7"⟩).trip_id ∧
    (tripsRow (fun s => s ++ "#") ⟨"trip1", "R 100"⟩).service_id
        = (tripsRow (fun s => s ++ "#") ⟨"trip1", "B 7"⟩).service_id ∧
    (tripsRow (fun s => s ++ "#") ⟨"trip1", "R 100"⟩).trip_id
        = (fun s => s ++ "#") "trip1" ∧
    (tripsRow (fun s => s ++ "#") ⟨"trip1", "R 100"⟩).service_id
        = (fun s => s ++ "#") ("service" ++ "trip1") :=
  C7_identity (fun s => s ++ "#") ⟨"trip1", "R 100"⟩ ⟨"trip1", "B 7"⟩ rfl

/-- C8: `time_to_gtfs` renders the signed whole-second offset from midnight
of the reference date, floor-divided into hours / minutes / seconds and
zero-padded, hours being free to exceed 24: an instant 1h 2min 3s past
midnight renders as "01:02:03", an instant 25h past midnight as "25:00:00",
and in general the rendered fields are exactly the floor-division
decomposition of the offset. -/
theorem C8_time_to_gtfs (m : Int) :
    time_to_gtfs m (m + 3723) = "01:02:03" ∧
    time_to_gtfs m (m + 90000) = "25:00:00" ∧
    ∀ t : Int, ∃ hh mm ss : Int,
      t - m = 3600 * hh + 60 * mm + ss ∧
      0 ≤ mm ∧ mm < 60 ∧ 0 ≤ ss ∧ ss < 60 ∧
      time_to_gtfs m t = pad2 hh ++ ":" ++ pad2 mm ++ ":" ++ pad2 ss := by
  refine ⟨?_, ?_, ?_⟩
  · have h1 : m + 3723 - m = (3723 : Int) := by omega
    simp only [time_to_gtfs, h1]
    decide
  · have h1 : m + 90000 - m = (90000 : Int) := by omega
    simp only [time_to_gtfs, h1]
    decide
  · intro t
    refine ⟨(t - m) / 3600, (t - m) % 3600 / 60, (t - m) % 60, ?_, ?_, ?_, ?_, ?_, rfl⟩
    all_goals omega

/-- C9, counterexample: a stopover with neither an arrival nor a departure
timestamp is NOT skipped as a stop/stop_times pair — the `stops` upsert runs
before the skip check, so the code still emits its stops row (1 row, not 0)
and only the stop_times row is withheld. -/
theorem C9_counterexample :
    hasNoTimes ⟨⟨"S", "id1", 0, 0⟩, none, none⟩ = true ∧
    (stopoverRows (fun s => ⟨s.name, s.latitude, s.longitude⟩) "h" 0 1
        [⟨⟨"S", "id1", 0, 0⟩, none, none⟩]).1.length = 1 ∧
    (stopoverRows (fun s => ⟨s.name, s.latitude, s.longitude⟩) "h" 0 1
        [⟨⟨"S", "id1", 0, 0⟩, none, none⟩]).2.length = 0 ∧
    (stopoverRows (fun s => ⟨s.name, s.latitude, s.longitude⟩) "h" 0 1
        [⟨⟨"S", "id1", 0, 0⟩, none, none⟩]).1.length ≠ 0 := by
  refine ⟨rfl, rfl, rfl, ?_⟩
  decide

/-- C9, amended: for every processed trip, one stops row is emitted per
stopover UNCONDITIONALLY (the stops upsert precedes the skip check), while
the stop_times row is emitted exactly for the stopovers that have an arrival
or a departure timestamp (a stopover with neither is logged and its
stop_times row skipped, processing continuing); the sequence numbers of the
emitted stop_times rows form the strictly increasing counter 1, 2, … in
stopover order as delivered. -/
theorem C9_stopover_rows (resolve : HafasStop → Stop) (tripIdHash : String)
    (refMidnight : Int) (sos : List Stopover) :
    (stopoverRows resolve tripIdHash refMidnight 1 sos).1.length = sos.length ∧
    (stopoverRows resolve tripIdHash refMidnight 1 sos).2.length
      = (sos.filter (fun so => !hasNoTimes so)).length ∧
    (stopoverRows resolve tripIdHash refMidnight 1 sos).2.map
        (fun r => r.stop_sequence)
      = List.range' 1 (sos.filter (fun so => !hasNoTimes so)).length :=
  stopoverRows_counts resolve tripIdHash refMidnight 1 sos

/-- C10: for a trip whose mode is neither bus nor train, the route-type
mapping raises the plain `Exception("Unknown mode")`, and the fetch loop's
`except (GeneralHafasError, KeyboardInterrupt)` clause does not catch it, so
it propagates and ends processing. -/
theorem C10_unknown_mode (mode : Mode) (rt : Option String)
    (h1 : mode ≠ Mode.bus) (h2 : mode ≠ Mode.train) :
    mode_to_route_type mode rt = .error .unknownMode ∧
    fetchLoopCatches .unknownMode = false := by
  cases mode <;> simp_all [mode_to_route_type, fetchLoopCatches]

/-- C10 witness. -/
theorem C10_unknown_mode_witness :
    mode_to_route_type Mode.walking none = .error .unknownMode ∧
    fetchLoopCatches .unknownMode = false :=
  C10_unknown_mode Mode.walking none (by decide) (by decide)

end ZpcgGtfs
